import Mathlib

/-!
Verification of the book-catalog CRUD server (`src/server.js`).

The server keeps a single JSON file holding an array of book records and
exposes CRUD, bulk-create and statistics endpoints over it.  Below we give a
shallow embedding of the relevant helper functions and route handlers and
prove properties about them.  JavaScript values that may be absent or falsy
are modelled with `Option`; JS truthiness of a string is «present and
non-empty», of a number «present and non-zero».
-/

namespace BookCatalog

/-- A stored book record (an element of the `books.json` array).
`year` is `none` when the JSON field is `null`. -/
structure Book where
  id : Int
  title : String
  author : String
  genre : String
  year : Option Int
  description : String
  isbn : String
  createdAt : String
  updatedAt : String
deriving Repr, DecidableEq

/-- A request body for create/update (`req.body`): duck-typed, every field
may be absent. -/
structure Candidate where
  title : Option String := none
  author : Option String := none
  genre : Option String := none
  year : Option Int := none
  description : Option String := none
  isbn : Option String := none
deriving Repr, DecidableEq

/-- JS `String.prototype.trim`: drop whitespace from both ends.  (Implemented on
the character list so that the kernel can evaluate it.) -/
def trimJS (s : String) : String :=
  ⟨((s.toList.dropWhile Char.isWhitespace).reverse.dropWhile Char.isWhitespace).reverse⟩

/-- JS truthiness of a possibly-absent string (`undefined` and `""` are falsy). -/
def truthyS : Option String → Bool
  | some s => s ≠ ""
  | none => false

/-- JS truthiness of a possibly-absent number (`undefined` and `0` are falsy). -/
def truthyI : Option Int → Bool
  | some n => n ≠ 0
  | none => false

/-- Read an optional string field, defaulting to the empty string. -/
def getS (o : Option String) : String := o.getD ""

/-- Read an optional int field, defaulting to 0 (only consulted when truthy). -/
def getI (o : Option Int) : Int := o.getD 0

/-- JS `String.prototype.toLowerCase` (ASCII case folding). -/
def lower (s : String) : String := ⟨s.toList.map Char.toLower⟩

/-- The normalization `isbn.replace(/[\s-]/g, '')`: drop whitespace and hyphens. -/
def stripIsbn (s : String) : String :=
  ⟨s.toList.filter (fun c => !(c.isWhitespace || c = '-'))⟩

/-- The test `/^[\d-]{10,17}$/.test s` for a string `s` already free of hyphens:
10 to 17 characters, each a digit or hyphen. -/
def isbnShapeOk (s : String) : Bool :=
  s.toList.all (fun c => c.isDigit || c = '-') &&
    decide (10 ≤ s.toList.length) && decide (s.toList.length ≤ 17)

/-- The condition `!field || field.trim().length === 0` — the rejection test applied to
both `title` and `author`. -/
def blankField (o : Option String) : Bool :=
  !truthyS o || trimJS (getS o) = ""

/-- The condition `book.year && (book.year < 1000 || book.year > currentYear)`. -/
def yearBad (o : Option Int) (currentYear : Int) : Bool :=
  truthyI o && (decide (getI o < 1000) || decide (getI o > currentYear))

/-- The condition `book.isbn && !/^[\d-]{10,17}$/.test(book.isbn.replace(/[\s-]/g, ''))`. -/
def isbnBad (o : Option String) : Bool :=
  truthyS o && !isbnShapeOk (stripIsbn (getS o))

/-- Function `validateBook` from `server.js` (lines 102-122).  `currentYear` stands for
`new Date().getFullYear()`.  Errors are accumulated in source order:
title, author, year, isbn. -/
def validateBook (book : Candidate) (currentYear : Int) : List String :=
  (if blankField book.title then ["Title is required"] else []) ++
  (if blankField book.author then ["Author is required"] else []) ++
  (if yearBad book.year currentYear
    then ["Year must be between 1000 and current year"] else []) ++
  (if isbnBad book.isbn then ["Invalid ISBN format"] else [])

/-! ## Store -/

/-- State of the backing `books.json` file: absent, present but not valid
JSON, or a parsable array of books. -/
inductive FileState where
  | missing
  | corrupt
  | stored (books : List Book)
deriving Repr, DecidableEq

/-- Function `readBooks` from `server.js` (lines 85-92): read and parse the file;
any failure (missing file or parse error) yields the empty collection. -/
def readBooks : FileState → List Book
  | .stored bs => bs
  | .missing => []
  | .corrupt => []

/-- Function `writeBooks` from `server.js` (lines 94-96): serialize the collection,
replacing whatever the file held. -/
def writeBooks (books : List Book) (_fs : FileState) : FileState :=
  .stored books

/-- Function `generateId` from `server.js` (lines 98-100):
`books.length > 0 ? Math.max(...books.map(b => b.id)) + 1 : 1`. -/
def generateId : List Book → Int
  | [] => 1
  | b :: bs => (bs.foldl (fun m x => max m x.id) b.id) + 1

/-! ## JS `parseInt` -/

/-- Hexadecimal digit test for `parseInt` with an implied radix of 16. -/
def isHexDigit (c : Char) : Bool :=
  c.isDigit || ('a' ≤ c && c ≤ 'f') || ('A' ≤ c && c ≤ 'F')

/-- Value of a hexadecimal digit. -/
def hexVal (c : Char) : Nat :=
  if c.isDigit then c.toNat - 48
  else if 'a' ≤ c && c ≤ 'f' then c.toNat - 87
  else c.toNat - 55

/-- Longest prefix of digits of the given base, as a number; `none` when the
prefix is empty (`parseInt` returns `NaN` then). -/
def parseDigits (base : Nat) (isD : Char → Bool) (val : Char → Nat)
    (cs : List Char) : Option Nat :=
  match cs.takeWhile isD with
  | [] => none
  | ds => some (ds.foldl (fun a c => a * base + val c) 0)

/-- JS `parseInt(s)` with no radix argument: skip leading whitespace, read an
optional sign, honour a `0x`/`0X` prefix as hexadecimal, then take the longest
run of digits.  `none` models `NaN`. -/
def parseIntJS (s : String) : Option Int :=
  let cs := s.toList.dropWhile Char.isWhitespace
  let (sign, cs') : Int × List Char :=
    match cs with
    | '-' :: r => (-1, r)
    | '+' :: r => (1, r)
    | r => (1, r)
  let mag : Option Nat :=
    match cs' with
    | '0' :: 'x' :: r => parseDigits 16 isHexDigit hexVal r
    | '0' :: 'X' :: r => parseDigits 16 isHexDigit hexVal r
    | r => parseDigits 10 Char.isDigit (fun c => c.toNat - 48) r
  mag.map (fun n => sign * (n : Int))

/-! ## Create -/

/-- The duplicate test shared by POST, PUT and bulk create (`server.js`
lines 206-209 etc.): some stored book has the same lower-cased title and
author as the candidate.  Note the candidate's fields are compared
*untrimmed*. -/
def dupExists (books : List Book) (title author : String) : Bool :=
  books.any (fun b => lower b.title = lower title && lower b.author = lower author)

/-- The record built by POST `/api/books` (lines 215-225) and the bulk route:
trims title/author/description/isbn, defaults `genre` to `"Other"` and `year`
to `null`, assigns `id` and both timestamps. -/
def mkNewBook (c : Candidate) (now : String) (books : List Book) : Book :=
  { id := generateId books
    title := trimJS (getS c.title)
    author := trimJS (getS c.author)
    genre := if truthyS c.genre then getS c.genre else "Other"
    year := if truthyI c.year then c.year else none
    description := if truthyS c.description then trimJS (getS c.description) else ""
    isbn := if truthyS c.isbn then trimJS (getS c.isbn) else ""
    createdAt := now
    updatedAt := now }

/-- Outcome of POST `/api/books`. -/
inductive CreateResult where
  | invalid (errors : List String)
  | duplicate
  | created (b : Book)
deriving Repr, DecidableEq

/-- HTTP status of a create outcome (400 for validation or duplicate
rejection, 201 on success). -/
def createStatus : CreateResult → Nat
  | .invalid _ => 400
  | .duplicate => 400
  | .created _ => 201

/-- POST `/api/books` (lines 194-234): validate, reject duplicates, append
the normalized record, persist.  Returns the outcome and the collection that
is written back (unchanged on rejection). -/
def postBook (c : Candidate) (currentYear : Int) (now : String)
    (books : List Book) : CreateResult × List Book :=
  let errors := validateBook c currentYear
  if errors ≠ [] then (.invalid errors, books)
  else if dupExists books (getS c.title) (getS c.author) then (.duplicate, books)
  else
    let nb := mkNewBook c now books
    (.created nb, books ++ [nb])

/-! ## Fetch one, update, delete -/

/-- The lookup `books.find(b => b.id === parseInt(req.params.id))`: a `NaN` id (`none`)
compares unequal to every stored id. -/
def findBook (books : List Book) : Option Int → Option Book
  | none => none
  | some n => books.find? (fun b => b.id = n)

/-- Outcome of GET `/api/books/:id`. -/
inductive FetchResult where
  | notFound
  | found (b : Book)
deriving Repr, DecidableEq

/-- GET `/api/books/:id` (lines 178-191): 404 when no book matches the parsed
id, otherwise the book. -/
def getBook (idSeg : String) (books : List Book) : FetchResult :=
  match findBook books (parseIntJS idSeg) with
  | none => .notFound
  | some b => .found b

/-- Outcome of PUT `/api/books/:id`. -/
inductive UpdateResult where
  | invalid (errors : List String)
  | notFound
  | duplicate
  | updated (b : Book)
deriving Repr, DecidableEq

/-- HTTP status of an update outcome. -/
def updateStatus : UpdateResult → Nat
  | .invalid _ => 400
  | .notFound => 404
  | .duplicate => 400
  | .updated _ => 200

/-- PUT `/api/books/:id` (lines 237-283) after the id segment has been parsed:
validate (400), locate the record (404), reject duplicates among the *other*
records (400), then overwrite in place, spreading the old record so that `id`
and `createdAt` survive and refreshing `updatedAt`. -/
def putBookCore (oid : Option Int) (c : Candidate) (currentYear : Int)
    (now : String) (books : List Book) : UpdateResult × List Book :=
  let errors := validateBook c currentYear
  if errors ≠ [] then (.invalid errors, books)
  else
    match oid with
    | none => (.notFound, books)
    | some bookId =>
      match books.findIdx? (fun b => b.id = bookId) with
      | none => (.notFound, books)
      | some i =>
        if books.any (fun b => b.id ≠ bookId &&
            lower b.title = lower (getS c.title) &&
            lower b.author = lower (getS c.author)) then (.duplicate, books)
        else
          match books[i]? with
          | none => (.notFound, books)   -- unreachable: findIdx? returned i
          | some old =>
            let ub : Book :=
              { old with
                title := trimJS (getS c.title)
                author := trimJS (getS c.author)
                genre := if truthyS c.genre then getS c.genre else "Other"
                year := if truthyI c.year then c.year else none
                description := if truthyS c.description
                  then trimJS (getS c.description) else ""
                isbn := if truthyS c.isbn then trimJS (getS c.isbn) else ""
                updatedAt := now }
            (.updated ub, books.set i ub)

/-- PUT `/api/books/:id` including the `parseInt` of the path segment. -/
def putBook (idSeg : String) (c : Candidate) (currentYear : Int) (now : String)
    (books : List Book) : UpdateResult × List Book :=
  putBookCore (parseIntJS idSeg) c currentYear now books

/-- Outcome of DELETE `/api/books/:id`. -/
inductive DeleteResult where
  | notFound
  | deleted (b : Book)
deriving Repr, DecidableEq

/-- DELETE `/api/books/:id` (lines 286-304): locate by parsed id, splice the
record out, report it back. -/
def deleteBook (idSeg : String) (books : List Book) : DeleteResult × List Book :=
  match parseIntJS idSeg with
  | none => (.notFound, books)
  | some bookId =>
    match books.findIdx? (fun b => b.id = bookId) with
    | none => (.notFound, books)
    | some i =>
      match books[i]? with
      | none => (.notFound, books)     -- unreachable: findIdx? returned i
      | some b => (.deleted b, books.eraseIdx i)

/-! ## Query engine (GET /api/books) -/

/-- JS `a.includes(b)` on strings: `b` occurs as a contiguous substring of `a`. -/
def jsIncludes (hay sub : String) : Bool :=
  decide (List.IsInfix sub.toList hay.toList)

/-- Parsed query parameters of GET `/api/books`.  `search`, `genre` and
`author` are the raw strings (`none` when the parameter is absent or empty,
i.e. falsy); `year` is the numeric value the loose comparison `book.year ==
year` tests against; `limit`/`offset` are the `parseInt` values. -/
structure Query where
  search : Option String := none
  genre : Option String := none
  year : Option Int := none
  author : Option String := none
  limit : Option Nat := none
  offset : Option Nat := none
deriving Repr

/-- The filter cascade of GET `/api/books` (lines 132-157), AND-combined in
source order: substring search over title/author/genre/description (the
last only when non-empty), exact genre, loose year equality (`null` never
matches), and substring author search. -/
def filterBooks (q : Query) (books : List Book) : List Book :=
  let f1 := match q.search with
    | some s => books.filter (fun b =>
        jsIncludes (lower b.title) (lower s) ||
        jsIncludes (lower b.author) (lower s) ||
        jsIncludes (lower b.genre) (lower s) ||
        (b.description ≠ "" && jsIncludes (lower b.description) (lower s)))
    | none => books
  let f2 := match q.genre with
    | some g => f1.filter (fun b => b.genre = g)
    | none => f1
  let f3 := match q.year with
    | some y => f2.filter (fun b => b.year = some y)
    | none => f2
  match q.author with
  | some a => f3.filter (fun b => jsIncludes (lower b.author) (lower a))
  | none => f3

/-- The pagination step (lines 161-165): applied only when `limit` is given,
`slice(offset, offset + limit)` with `offset` defaulting to 0. -/
def paginate (limit offset : Option Nat) (books : List Book) : List Book :=
  match limit with
  | none => books
  | some l => (books.drop (offset.getD 0)).take l

/-- Response shape of GET `/api/books`. -/
structure ListResponse where
  books : List Book
  total : Nat
  count : Nat
deriving Repr

/-- GET `/api/books` (lines 127-175): filter, record the filtered length as
`total`, paginate, report the slice and its length as `count`. -/
def getBooks (q : Query) (books : List Book) : ListResponse :=
  let filtered := filterBooks q books
  let total := filtered.length
  let sliced := paginate q.limit q.offset filtered
  { books := sliced, total := total, count := sliced.length }

/-! ## Stats, genres, authors -/

/-- First-occurrence deduplication: the element order of `new Set(list)`. -/
def jsSetList (l : List String) : List String :=
  l.foldl (fun acc x => if x ∈ acc then acc else acc ++ [x]) []

/-- Increment the count stored under `k`, appending the key on first sight —
the behaviour of `obj[k] = (obj[k] || 0) + 1` on a JS object used as a map. -/
def bump (acc : List (String × Nat)) (k : String) : List (String × Nat) :=
  if acc.any (fun p => p.1 = k)
    then acc.map (fun p => if p.1 = k then (p.1, p.2 + 1) else p)
    else acc ++ [(k, 1)]

/-- Look a key up in an accumulated distribution. -/
def distLookup (acc : List (String × Nat)) (k : String) : Option Nat :=
  (acc.find? (fun p => p.1 = k)).map (fun p => p.2)

/-- Decade label of a year: `"{Math.floor(year/10)*10}s"`. -/
def decadeLabel (y : Int) : String :=
  toString (Int.fdiv y 10 * 10) ++ "s"

/-- The genre histogram of GET `/api/stats` (lines 323-325). -/
def genreDistribution (books : List Book) : List (String × Nat) :=
  books.foldl (fun acc b => bump acc b.genre) []

/-- The decade histogram of GET `/api/stats` (lines 328-334): books with a
truthy `year` are bucketed under their decade label. -/
def yearDistribution (books : List Book) : List (String × Nat) :=
  books.foldl (fun acc b =>
    if truthyI b.year then bump acc (decadeLabel (getI b.year)) else acc) []

/-- Response shape of GET `/api/stats`. -/
structure Stats where
  totalBooks : Nat
  totalAuthors : Nat
  totalGenres : Nat
  genreDistribution : List (String × Nat)
  yearDistribution : List (String × Nat)
  recentlyAdded : List Book
deriving Repr

/-- GET `/api/stats` (lines 307-340).  `recentlyAdded` sorts by `createdAt`
descending (ISO-8601 timestamps compare chronologically as strings) and keeps
the first 5. -/
def statsOf (books : List Book) : Stats :=
  { totalBooks := books.length
    totalAuthors := (jsSetList (books.map (fun b => b.author))).length
    totalGenres := (jsSetList (books.map (fun b => b.genre))).length
    genreDistribution := genreDistribution books
    yearDistribution := yearDistribution books
    recentlyAdded :=
      (books.mergeSort (fun a b => b.createdAt ≤ a.createdAt)).take 5 }

/-- GET `/api/genres` (lines 343-351): distinct genres, sorted. -/
def getGenres (books : List Book) : List String :=
  (jsSetList (books.map (fun b => b.genre))).mergeSort (fun a b => a ≤ b)

/-- GET `/api/authors` (lines 354-362): distinct authors, sorted. -/
def getAuthors (books : List Book) : List String :=
  (jsSetList (books.map (fun b => b.author))).mergeSort (fun a b => a ≤ b)

/-! ## Bulk create -/

/-- Accumulated response of POST `/api/books/bulk`: the created records and
the per-index error reports. -/
structure BulkRes where
  success : List Book
  errors : List (Nat × List String)
deriving Repr, DecidableEq

/-- The loop of POST `/api/books/bulk` (lines 381-418): candidates are
processed in order at increasing indices `i` against the *growing* collection
`books`; a failure is recorded under its index and a success is pushed onto
both the collection and the success list. -/
def bulkGo (currentYear : Int) (now : String) (i : Nat) (books : List Book)
    (succ : List Book) (errs : List (Nat × List String)) :
    List Candidate → List Book × List Book × List (Nat × List String)
  | [] => (books, succ, errs)
  | c :: rest =>
    let errors := validateBook c currentYear
    if errors ≠ [] then
      bulkGo currentYear now (i + 1) books succ (errs ++ [(i, errors)]) rest
    else if dupExists books (getS c.title) (getS c.author) then
      bulkGo currentYear now (i + 1) books succ
        (errs ++ [(i, ["Book with same title and author already exists"])]) rest
    else
      let nb := mkNewBook c now books
      bulkGo currentYear now (i + 1) (books ++ [nb]) (succ ++ [nb]) errs rest

/-- POST `/api/books/bulk` (lines 367-428) given a well-formed array body:
run the loop, then persist once iff at least one candidate succeeded.
Returns the response, the final collection, and whether a write happened. -/
def bulkCreate (cands : List Candidate) (currentYear : Int) (now : String)
    (books : List Book) : BulkRes × List Book × Bool :=
  let r := bulkGo currentYear now 0 books [] [] cands
  ({ success := r.2.1, errors := r.2.2 }, r.1, r.2.1 ≠ [])

/-- HTTP status of the bulk route: 400 when the body's `books` field is not
an array, otherwise 201 — even when every candidate failed. -/
def bulkStatus : Option (List Candidate) → Nat
  | none => 400
  | some _ => 201

/-! ## Seed data -/

/-- The four sample books written on first run (`initializeBooksData`,
lines 28-82), timestamped with the startup time `t`. -/
def sampleBooks (t : String) : List Book :=
  [ { id := 1, title := "To Kill a Mockingbird", author := "Harper Lee",
      genre := "Fiction", year := some 1960,
      description := "A classic novel about racial injustice and moral growth in the American South.",
      isbn := "978-0-06-112008-4", createdAt := t, updatedAt := t },
    { id := 2, title := "1984", author := "George Orwell",
      genre := "Science Fiction", year := some 1949,
      description := "A dystopian novel about totalitarianism and surveillance.",
      isbn := "978-0-452-28423-4", createdAt := t, updatedAt := t },
    { id := 3, title := "Pride and Prejudice", author := "Jane Austen",
      genre := "Romance", year := some 1813,
      description := "A romantic novel about Elizabeth Bennet and Mr. Darcy.",
      isbn := "978-0-14-143951-8", createdAt := t, updatedAt := t },
    { id := 4, title := "The Great Gatsby", author := "F. Scott Fitzgerald",
      genre := "Fiction", year := some 1925,
      description := "A story of decadence and excess in Jazz Age America.",
      isbn := "978-0-7432-7356-5", createdAt := t, updatedAt := t } ]

/-! ## Handlers over the file state

Each route first materializes the collection with `readBooks`; only the
mutating routes call `writeBooks`. -/

/-- GET `/api/books` as a transition on the backing file. -/
def getBooksHandler (q : Query) (fs : FileState) : ListResponse × FileState :=
  (getBooks q (readBooks fs), fs)

/-- GET `/api/books/:id` as a transition on the backing file. -/
def getBookHandler (idSeg : String) (fs : FileState) : FetchResult × FileState :=
  (getBook idSeg (readBooks fs), fs)

/-- GET `/api/stats` as a transition on the backing file. -/
def statsHandler (fs : FileState) : Stats × FileState :=
  (statsOf (readBooks fs), fs)

/-- GET `/api/genres` as a transition on the backing file. -/
def genresHandler (fs : FileState) : List String × FileState :=
  (getGenres (readBooks fs), fs)

/-- GET `/api/authors` as a transition on the backing file. -/
def authorsHandler (fs : FileState) : List String × FileState :=
  (getAuthors (readBooks fs), fs)

/-- POST `/api/books/bulk` as a transition on the backing file: one
`writeBooks` call iff some candidate succeeded. -/
def bulkHandler (cands : List Candidate) (currentYear : Int) (now : String)
    (fs : FileState) : BulkRes × FileState :=
  let r := bulkCreate cands currentYear now (readBooks fs)
  (r.1, if r.2.2 then writeBooks r.2.1 fs else fs)

/-! ## Spec-side predicates

These follow the specification's wording rather than the code, for comparison
with `validateBook`. -/

/-- A string of 10 to 17 characters, all decimal digits. -/
def digits1017 (s : String) : Bool :=
  s.toList.all Char.isDigit &&
    decide (10 ≤ s.toList.length) && decide (s.toList.length ≤ 17)

/-- Validity in the words of the claim: title and author present and
non-whitespace-only, year *if present* in `[1000, currentYear]`, isbn *if
present* normalizing to 10-17 digits. -/
def specValidPresent (c : Candidate) (currentYear : Int) : Bool :=
  (match c.title with | some s => trimJS s ≠ "" | none => false) &&
  (match c.author with | some s => trimJS s ≠ "" | none => false) &&
  (match c.year with
    | some y => decide (1000 ≤ y) && decide (y ≤ currentYear)
    | none => true) &&
  (match c.isbn with | some s => digits1017 (stripIsbn s) | none => true)

/-- Title/author rule, spec-side: the field is given and not whitespace-only. -/
def fieldGivenNonBlank (o : Option String) : Prop :=
  ∃ s, o = some s ∧ trimJS s ≠ ""

/-- Year rule amended for JS truthiness: a given, non-zero year must lie in
`[1000, currentYear]`. -/
def yearRuleOk (o : Option Int) (currentYear : Int) : Prop :=
  ∀ y, o = some y → y ≠ 0 → 1000 ≤ y ∧ y ≤ currentYear

/-- ISBN rule amended for JS truthiness: a given, non-empty isbn must strip
to 10-17 digits. -/
def isbnRuleOk (o : Option String) : Prop :=
  ∀ s, o = some s → s ≠ "" → digits1017 (stripIsbn s) = true

/-- The case-insensitive `(title, author)` key of the uniqueness invariant. -/
def pairKey (b : Book) : String × String := (lower b.title, lower b.author)

/-! ## Concrete inputs used by witnesses and counterexamples -/

/-- A candidate whose title carries a trailing blank. -/
def padTitleCand : Candidate := { title := some "A ", author := some "B" }

/-- The record POST `/api/books` builds from `padTitleCand` on an empty
collection at time `"t"`. -/
def padTitleBook : Book :=
  { id := 1, title := "A", author := "B", genre := "Other", year := none,
    description := "", isbn := "", createdAt := "t", updatedAt := "t" }

/-- Bulk scenario, first candidate: valid. -/
def bulkCand1 : Candidate := { title := some "X", author := some "Y" }

/-- Bulk scenario, second candidate: invalid (no title). -/
def bulkCand2 : Candidate := { author := some "Y" }

/-- Bulk scenario, third candidate: duplicates the first. -/
def bulkCand3 : Candidate := { title := some "X", author := some "Y" }

/-- A candidate with a present but zero (hence JS-falsy) year and a present
but empty (hence JS-falsy) isbn. -/
def zeroYearCand : Candidate :=
  { title := some "A", author := some "B", year := some 0, isbn := some "" }

/-- A fully valid candidate. -/
def duneCand : Candidate :=
  { title := some "Dune", author := some "Frank Herbert",
    year := some 1965, isbn := some "978-0-441-17271-9" }

/-! # Theorems -/

/-- C1: the (title, author) uniqueness invariant.  The spec demands that a
Create whose candidate pair case-insensitively matches an existing book is
rejected and that uniqueness is preserved by every operation; but the
duplicate check compares the *untrimmed* candidate title while the stored
record is trimmed, so a title differing from an existing one only by a
leading blank slips past the check and the trimmed record then collides.
Starting from the seed collection (pairwise distinct keys), creating
`" 1984"` by George Orwell succeeds with 201 and leaves the collection with
two books sharing the case-insensitive key `("1984", "george orwell")`. -/
theorem create_breaks_uniqueness_invariant :
    List.Nodup ((sampleBooks "t").map pairKey) ∧
    createStatus (postBook { title := some " 1984", author := some "George Orwell" }
      2025 "t2" (sampleBooks "t")).1 = 201 ∧
    ¬ List.Nodup (((postBook { title := some " 1984", author := some "George Orwell" }
      2025 "t2" (sampleBooks "t")).2).map pairKey) := by
  decide

/-- C7: `readBooks` never fails — a missing or unparsable backing file yields
the empty collection, and a parsable file yields exactly its stored array. -/
theorem readBooks_silent_empty_fallback :
    readBooks .missing = [] ∧ readBooks .corrupt = [] ∧
    ∀ bs, readBooks (.stored bs) = bs :=
  ⟨rfl, rfl, fun _ => rfl⟩

/-- C8: on the seeded collection (whatever its creation timestamp), the stats
endpoint reports 4 books, 4 distinct authors, 3 distinct genres, and a decade
histogram giving each of "1940s", "1810s", "1920s" and "1960s" the count 1
and holding no other entry; and the decade label of a year is
`"{floor(year/10)*10}s"`, as witnessed on the four seed years. -/
theorem stats_on_seed (t : String) :
    (statsOf (sampleBooks t)).totalBooks = 4 ∧
    (statsOf (sampleBooks t)).totalAuthors = 4 ∧
    (statsOf (sampleBooks t)).totalGenres = 3 ∧
    (statsOf (sampleBooks t)).yearDistribution.length = 4 ∧
    distLookup (statsOf (sampleBooks t)).yearDistribution "1940s" = some 1 ∧
    distLookup (statsOf (sampleBooks t)).yearDistribution "1810s" = some 1 ∧
    distLookup (statsOf (sampleBooks t)).yearDistribution "1920s" = some 1 ∧
    distLookup (statsOf (sampleBooks t)).yearDistribution "1960s" = some 1 ∧
    decadeLabel 1960 = "1960s" ∧ decadeLabel 1949 = "1940s" ∧
    decadeLabel 1813 = "1810s" ∧ decadeLabel 1925 = "1920s" :=
  ⟨rfl, rfl, rfl, rfl, rfl, rfl, rfl, rfl, rfl, rfl, rfl, rfl⟩

/-- C9: none of the read-only handlers (list, fetch-one, stats, genres,
authors) touches the backing store: the file state after the request equals
the file state before it. -/
theorem readonly_handlers_preserve_store :
    (∀ q fs, (getBooksHandler q fs).2 = fs) ∧
    (∀ seg fs, (getBookHandler seg fs).2 = fs) ∧
    (∀ fs, (statsHandler fs).2 = fs) ∧
    (∀ fs, (genresHandler fs).2 = fs) ∧
    (∀ fs, (authorsHandler fs).2 = fs) :=
  ⟨fun _ _ => rfl, fun _ _ => rfl, fun _ => rfl, fun _ => rfl, fun _ => rfl⟩

/-- C3: pagination of GET `/api/books`.  `total` is always the filtered count
before slicing and `count` the length of the returned page.  Without a
`limit`, the whole filtered sequence is returned; with `limit = L` and
`offset = O` (defaulting to 0), the page is the slice `[O, O+L)` of the
filtered sequence and its length is `min L (N - O)` (natural subtraction,
i.e. `min(L, max(0, N-O))`) where `N` is the filtered count. -/
theorem getBooks_pagination (q : Query) (books : List Book) :
    (getBooks q books).total = (filterBooks q books).length ∧
    (getBooks q books).count = (getBooks q books).books.length ∧
    (q.limit = none → (getBooks q books).books = filterBooks q books) ∧
    ∀ l, q.limit = some l →
      (getBooks q books).books =
        ((filterBooks q books).drop (q.offset.getD 0)).take l ∧
      (getBooks q books).count =
        min l ((filterBooks q books).length - q.offset.getD 0) := by
  refine ⟨rfl, rfl, ?_, ?_⟩
  · intro h
    simp [getBooks, paginate, h]
  · intro l h
    refine ⟨by simp [getBooks, paginate, h], ?_⟩
    simp [getBooks, paginate, h, List.length_take, List.length_drop]

/-- C3 witness: limit 2, offset 1 on the 4-book seed collection. -/
theorem getBooks_pagination_witness :
    (getBooks { limit := some 2, offset := some 1 } (sampleBooks "t")).books =
      ((filterBooks { limit := some 2, offset := some 1 } (sampleBooks "t")).drop 1).take 2 ∧
    (getBooks { limit := some 2, offset := some 1 } (sampleBooks "t")).count =
      min 2 ((filterBooks { limit := some 2, offset := some 1 } (sampleBooks "t")).length - 1) := by
  have h := getBooks_pagination { limit := some 2, offset := some 1 } (sampleBooks "t")
  exact h.2.2.2 2 rfl

/-- C6: a successful PUT stores a record whose `id` and `createdAt` come from
the pre-update record and whose `updatedAt` is the request time, and sets it
at the old record's position, leaving every other position of the collection
untouched. -/
theorem putBook_update_frame (n : Int) (c : Candidate) (cy : Int) (now : String)
    (books : List Book) (i : Nat) (old : Book)
    (hfind : books.findIdx? (fun x => x.id = n) = some i)
    (hold : books[i]? = some old)
    (hval : validateBook c cy = [])
    (hdup : books.any (fun b => b.id ≠ n &&
      lower b.title = lower (getS c.title) &&
      lower b.author = lower (getS c.author)) = false) :
    ∃ b, putBookCore (some n) c cy now books = (.updated b, books.set i b) ∧
      b.id = old.id ∧ b.createdAt = old.createdAt ∧ b.updatedAt = now ∧
      ∀ j, j ≠ i → (books.set i b)[j]? = books[j]? := by
  have hdup2 : ¬ ∃ x ∈ books, (¬ x.id = n ∧ lower x.title = lower (getS c.title)) ∧
      lower x.author = lower (getS c.author) := by simpa using hdup
  simp [putBookCore, hval, hfind, hold, hdup2]
  exact ⟨_, ⟨rfl, rfl⟩, rfl, rfl, rfl, fun j hj => List.getElem?_set_ne (Ne.symm hj)⟩

/-- C6 witness: renaming seed book 1 at time `"t2"`. -/
theorem putBook_update_frame_witness :
    ∃ b, putBookCore (some 1) { title := some "Renamed", author := some "Harper Lee" }
        2025 "t2" (sampleBooks "t") = (.updated b, (sampleBooks "t").set 0 b) ∧
      b.id = 1 ∧ b.createdAt = "t" ∧ b.updatedAt = "t2" ∧
      ∀ j, j ≠ 0 → ((sampleBooks "t").set 0 b)[j]? = (sampleBooks "t")[j]? := by
  have h := putBook_update_frame 1
    { title := some "Renamed", author := some "Harper Lee" } 2025 "t2"
    (sampleBooks "t") 0 _ (by decide) rfl (by decide) (by decide)
  exact h

/-- C10: id handling of the `/api/books/:id` routes.  A segment with a
leading integer is interpreted as that integer (`"3abc"` behaves exactly like
`"3"`); a segment with no leading integer parses to `NaN`, which matches no
stored book, so GET and DELETE answer 404 and leave the collection alone,
and PUT answers 404 as well once its (earlier) validation step passes — in
no case a 500. -/
theorem nonnumeric_id_not_found :
    parseIntJS "3abc" = some 3 ∧
    (∀ fs, getBookHandler "3abc" fs = getBookHandler "3" fs) ∧
    (∀ seg books, parseIntJS seg = none →
      getBook seg books = .notFound ∧
      deleteBook seg books = (.notFound, books) ∧
      ∀ c cy now,
        (updateStatus (putBook seg c cy now books).1 = 400 ∨
         updateStatus (putBook seg c cy now books).1 = 404) ∧
        (validateBook c cy = [] → putBook seg c cy now books = (.notFound, books))) := by
  refine ⟨by decide, fun fs => rfl, ?_⟩
  intro seg books h
  refine ⟨by simp [getBook, findBook, h], by simp [deleteBook, h], ?_⟩
  intro c cy now
  by_cases hv : validateBook c cy = []
  · constructor
    · right
      simp [putBook, putBookCore, h, hv, updateStatus]
    · intro _
      simp [putBook, putBookCore, h, hv]
  · constructor
    · left
      simp [putBook, putBookCore, hv, updateStatus]
    · intro hv2
      exact absurd hv2 hv

/-- C10 witness: the segment `"abc"` parses to `NaN`, and GET and DELETE on
the seed collection both answer 404 and leave it unchanged. -/
theorem nonnumeric_id_not_found_witness :
    getBook "abc" (sampleBooks "t") = .notFound ∧
    deleteBook "abc" (sampleBooks "t") = (.notFound, sampleBooks "t") := by
  have h := (nonnumeric_id_not_found.2.2) "abc" (sampleBooks "t") (by decide)
  exact ⟨h.1, h.2.1⟩

/-- Every intermediate value of the running-max fold is at least its seed. -/
theorem le_foldl_max_id (bs : List Book) (a : Int) :
    a ≤ bs.foldl (fun m x => max m x.id) a := by
  induction bs generalizing a with
  | nil => simp
  | cons b bs ih => exact le_trans (le_max_left a b.id) (ih (max a b.id))

/-- The running-max fold dominates every id in the list. -/
theorem mem_le_foldl_max_id (bs : List Book) (a : Int) :
    ∀ x ∈ bs, x.id ≤ bs.foldl (fun m y => max m y.id) a := by
  induction bs generalizing a with
  | nil => simp
  | cons b bs ih =>
    intro x hx
    rcases List.mem_cons.mp hx with rfl | hx2
    · exact le_trans (le_max_right a x.id) (le_foldl_max_id bs (max a x.id))
    · exact ih (max a b.id) x hx2

/-- Freshness: `generateId` is strictly greater than every stored id, hence fresh. -/
theorem id_lt_generateId (books : List Book) :
    ∀ x ∈ books, x.id < generateId books := by
  intro x hx
  cases books with
  | nil => cases hx
  | cons b bs =>
    have hle : x.id ≤ bs.foldl (fun m y => max m y.id) b.id := by
      rcases List.mem_cons.mp hx with rfl | h2
      · exact le_foldl_max_id bs x.id
      · exact mem_le_foldl_max_id bs b.id x h2
    have hg : generateId (b :: bs) = bs.foldl (fun m y => max m y.id) b.id + 1 := rfl
    omega

/-- Looking a freshly appended record up by its id walks past every older
record and returns it. -/
theorem find_appended_fresh (books : List Book) (b : Book)
    (hb : ∀ x ∈ books, x.id ≠ b.id) :
    (books ++ [b]).find? (fun x => x.id = b.id) = some b := by
  induction books with
  | nil => simp
  | cons a l ih =>
    rw [List.cons_append, List.find?_cons_of_neg, ih]
    · intro x hx
      exact hb x (List.mem_cons_of_mem a hx)
    · simp [hb a (List.mem_cons_self a l)]

/-- C4 (amended): a successful POST appends exactly one record, and fetching
the returned id finds that record; the stored record is the *normalized*
input — title/author/description/isbn trimmed, `genre` defaulting to
`"Other"`, `year` defaulting to `null` — plus the assigned `id`, `createdAt`
and `updatedAt`. -/
theorem create_then_fetch (c : Candidate) (cy : Int) (now : String)
    (books books2 : List Book) (b : Book)
    (h : postBook c cy now books = (.created b, books2)) :
    (books2 = books ++ [b] ∧ b.id = generateId books ∧
      b.createdAt = now ∧ b.updatedAt = now) ∧
    (b.title = trimJS (getS c.title) ∧ b.author = trimJS (getS c.author) ∧
      b.genre = (if truthyS c.genre then getS c.genre else "Other") ∧
      b.year = (if truthyI c.year then c.year else none) ∧
      b.description = (if truthyS c.description then trimJS (getS c.description) else "") ∧
      b.isbn = (if truthyS c.isbn then trimJS (getS c.isbn) else "")) ∧
    (findBook books2 (some b.id) = some b ∧
      ∀ seg, parseIntJS seg = some b.id → getBook seg books2 = .found b) := by
  simp only [postBook] at h
  split at h
  · simp at h
  · split at h
    · simp at h
    · simp only [Prod.mk.injEq, CreateResult.created.injEq] at h
      obtain ⟨h1, h2⟩ := h
      subst h1
      subst h2
      have hfind : findBook (books ++ [mkNewBook c now books])
          (some (mkNewBook c now books).id) = some (mkNewBook c now books) := by
        unfold findBook
        exact find_appended_fresh books (mkNewBook c now books)
          (fun x hx => ne_of_lt (id_lt_generateId books x hx))
      refine ⟨⟨rfl, rfl, rfl, rfl⟩, ⟨rfl, rfl, rfl, rfl, rfl, rfl⟩, hfind, ?_⟩
      intro seg hs
      unfold getBook
      rw [hs, hfind]

/-- C4 counterexample to the claim as stated: the candidate with title
`"A "` passes validation and the duplicate check on the empty collection,
but the record that create-then-fetch returns carries the *trimmed* title
`"A"`, so it does not equal the input plus the assigned fields. -/
theorem create_then_fetch_claim_counterexample :
    validateBook padTitleCand 2025 = [] ∧
    dupExists [] (getS padTitleCand.title) (getS padTitleCand.author) = false ∧
    postBook padTitleCand 2025 "t" [] = (.created padTitleBook, [padTitleBook]) ∧
    getBook "1" [padTitleBook] = .found padTitleBook ∧
    padTitleBook.title ≠ getS padTitleCand.title := by
  decide

/-- C4 witness: the amended round-trip at the concrete creation above. -/
theorem create_then_fetch_witness :
    findBook [padTitleBook] (some padTitleBook.id) = some padTitleBook ∧
    getBook "1" [padTitleBook] = .found padTitleBook := by
  have h := create_then_fetch padTitleCand 2025 "t" [] [padTitleBook] padTitleBook (by decide)
  exact ⟨h.2.2.1, h.2.2.2 "1" (by decide)⟩

/-- Two boolean predicates agreeing on every element give the same `all`. -/
theorem all_eq_of_mem_eq {p q : Char → Bool} :
    ∀ l : List Char, (∀ c ∈ l, p c = q c) → l.all p = l.all q := by
  intro l h
  induction l with
  | nil => rfl
  | cons a l ih =>
    simp only [List.all_cons, h a (by simp), ih (fun c hc => h c (by simp [hc]))]

/-- On a string already stripped of hyphens and whitespace, the source's
`[\d-]{10,17}` test coincides with «10-17 digits». -/
theorem isbnShape_stripped (s : String) :
    isbnShapeOk (stripIsbn s) = digits1017 (stripIsbn s) := by
  unfold isbnShapeOk digits1017
  congr 1
  congr 1
  apply all_eq_of_mem_eq
  intro c hc
  have h3 : c ∈ s.data ∧ c.isWhitespace = false ∧ ¬ c = '-' := by
    simpa [stripIsbn] using hc
  simp [h3.2.2]

/-- The title/author rejection test fails exactly when the field is given and
not whitespace-only. -/
theorem blankField_false_iff (o : Option String) :
    blankField o = false ↔ fieldGivenNonBlank o := by
  cases o with
  | none => simp [blankField, truthyS, fieldGivenNonBlank]
  | some s =>
    simp [blankField, truthyS, getS, fieldGivenNonBlank]
    intro h
    rintro rfl
    exact h rfl

/-- The year rejection test fails exactly when any given non-zero year lies
in `[1000, currentYear]`. -/
theorem yearBad_false_iff (o : Option Int) (cy : Int) :
    yearBad o cy = false ↔ yearRuleOk o cy := by
  cases o with
  | none =>
    simp [yearBad, truthyI, yearRuleOk]
  | some y =>
    simp [yearBad, truthyI, getI, yearRuleOk]

/-- The isbn rejection test fails exactly when any given non-empty isbn
strips to 10-17 digits. -/
theorem isbnBad_false_iff (o : Option String) :
    isbnBad o = false ↔ isbnRuleOk o := by
  cases o with
  | none => simp [isbnBad, truthyS, isbnRuleOk]
  | some s =>
    simp [isbnBad, truthyS, getS, isbnRuleOk, isbnShape_stripped]

/-- C2 (amended for JS truthiness): `validateBook` returns the empty list iff
title and author are given and non-whitespace-only, the year — *if given and
non-zero* — lies in `[1000, currentYear]`, and the isbn — *if given and
non-empty* — strips to 10-17 digits; each of the four messages is reported
iff its rule is violated (so all violations are reported, not just the
first), and the error list always follows the fixed order title, author,
year, isbn. -/
theorem validateBook_spec (c : Candidate) (cy : Int) :
    (validateBook c cy = [] ↔
      (fieldGivenNonBlank c.title ∧ fieldGivenNonBlank c.author ∧
       yearRuleOk c.year cy ∧ isbnRuleOk c.isbn)) ∧
    ("Title is required" ∈ validateBook c cy ↔ ¬ fieldGivenNonBlank c.title) ∧
    ("Author is required" ∈ validateBook c cy ↔ ¬ fieldGivenNonBlank c.author) ∧
    ("Year must be between 1000 and current year" ∈ validateBook c cy ↔
      ¬ yearRuleOk c.year cy) ∧
    ("Invalid ISBN format" ∈ validateBook c cy ↔ ¬ isbnRuleOk c.isbn) ∧
    (validateBook c cy).Sublist ["Title is required", "Author is required",
      "Year must be between 1000 and current year", "Invalid ISBN format"] := by
  cases h1 : blankField c.title <;> cases h2 : blankField c.author <;>
    cases h3 : yearBad c.year cy <;> cases h4 : isbnBad c.isbn <;>
    simp [validateBook, h1, h2, h3, h4, ← blankField_false_iff,
      ← yearBad_false_iff, ← isbnBad_false_iff]

/-- C2 counterexample to the claim as stated (with «present» read literally):
a candidate with a present-but-zero year and a present-but-empty isbn is
accepted by `validateBook` with no errors, although the year is present and
outside `[1000, currentYear]` and the isbn is present and does not strip to
10-17 digits — JS truthiness skips both checks. -/
theorem validateBook_claim_counterexample :
    validateBook zeroYearCand 2025 = [] ∧
    specValidPresent zeroYearCand 2025 = false := by
  decide

/-- C2 witness: a fully valid candidate is accepted, via the amended
equivalence. -/
theorem validateBook_spec_witness :
    validateBook duneCand 2025 = [] := by
  have h := validateBook_spec duneCand 2025
  refine h.1.mpr ⟨⟨"Dune", rfl, by decide⟩, ⟨"Frank Herbert", rfl, by decide⟩, ?_, ?_⟩
  · intro y hy hne
    cases hy
    exact ⟨by decide, by decide⟩
  · intro s hs hne
    cases hs
    decide

/-- Invariant of the bulk loop: starting at index `i`, the final collection
and success list extend their inputs by one common suffix `ns` (the created
records), the error list by `ne`; every candidate lands in exactly one of the
two; error indices lie in `[i, i + cands.length)` and increase strictly. -/
theorem bulkGo_inv (cy : Int) (now : String) :
    ∀ (cands : List Candidate) (i : Nat) (books succ : List Book)
      (errs : List (Nat × List String)),
    ∃ ns ne,
      bulkGo cy now i books succ errs cands = (books ++ ns, succ ++ ns, errs ++ ne) ∧
      ns.length + ne.length = cands.length ∧
      (∀ p ∈ ne, i ≤ p.1 ∧ p.1 < i + cands.length) ∧
      List.Pairwise (fun p q => p.1 < q.1) ne := by
  intro cands
  induction cands with
  | nil =>
    intro i books succ errs
    exact ⟨[], [], by simp [bulkGo], by simp, by simp, by simp⟩
  | cons c rest ih =>
    intro i books succ errs
    by_cases hv : validateBook c cy ≠ []
    · obtain ⟨ns, ne, heq, hlen, hbnd, hpw⟩ :=
        ih (i + 1) books succ (errs ++ [(i, validateBook c cy)])
      refine ⟨ns, (i, validateBook c cy) :: ne, ?_, ?_, ?_, ?_⟩
      · rw [bulkGo, if_pos hv, heq]
        simp
      · simp only [List.length_cons]
        omega
      · intro p hp
        rcases List.mem_cons.mp hp with rfl | hp2
        · simp only [List.length_cons]
          omega
        · have := hbnd p hp2
          simp only [List.length_cons]
          omega
      · exact List.Pairwise.cons (fun q hq => by have := hbnd q hq; omega) hpw
    · by_cases hd : dupExists books (getS c.title) (getS c.author) = true
      · obtain ⟨ns, ne, heq, hlen, hbnd, hpw⟩ :=
          ih (i + 1) books succ
            (errs ++ [(i, ["Book with same title and author already exists"])])
        refine ⟨ns, (i, ["Book with same title and author already exists"]) :: ne,
          ?_, ?_, ?_, ?_⟩
        · rw [bulkGo, if_neg hv, if_pos hd, heq]
          simp
        · simp only [List.length_cons]
          omega
        · intro p hp
          rcases List.mem_cons.mp hp with rfl | hp2
          · simp only [List.length_cons]
            omega
          · have := hbnd p hp2
            simp only [List.length_cons]
            omega
        · exact List.Pairwise.cons (fun q hq => by have := hbnd q hq; omega) hpw
      · obtain ⟨ns, ne, heq, hlen, hbnd, hpw⟩ :=
          ih (i + 1) (books ++ [mkNewBook c now books])
            (succ ++ [mkNewBook c now books]) errs
        refine ⟨mkNewBook c now books :: ns, ne, ?_, ?_, ?_, ?_⟩
        · rw [bulkGo, if_neg hv, if_neg hd, heq]
          simp
        · simp only [List.length_cons]
          omega
        · intro p hp
          have := hbnd p hp
          simp only [List.length_cons]
          omega
        · exact hpw

/-- C5: POST `/api/books/bulk` processes candidates in order against the
growing collection.  Every candidate is answered exactly once (successes plus
errors add up to the batch size); the final collection is the initial one
plus the successes, in order; the persistence write happens iff at least one
candidate succeeded; error reports carry strictly increasing original
indices, each within the batch; a well-formed body always gets status 201,
partial failures included; and the spec scenario — second candidate invalid,
third a duplicate of the first within the batch — yields one success and two
errors tagged with indices 1 and 2. -/
theorem bulk_batch_spec :
    (∀ (cands : List Candidate) (cy : Int) (now : String) (books : List Book),
      (bulkCreate cands cy now books).1.success.length +
        (bulkCreate cands cy now books).1.errors.length = cands.length ∧
      (bulkCreate cands cy now books).2.1 =
        books ++ (bulkCreate cands cy now books).1.success ∧
      ((bulkCreate cands cy now books).2.2 = true ↔
        (bulkCreate cands cy now books).1.success ≠ []) ∧
      List.Pairwise (fun p q => p.1 < q.1) (bulkCreate cands cy now books).1.errors ∧
      ∀ p ∈ (bulkCreate cands cy now books).1.errors, p.1 < cands.length) ∧
    (∀ (cands : List Candidate) (cy : Int) (now : String) (fs : FileState),
      ((bulkCreate cands cy now (readBooks fs)).1.success = [] →
        (bulkHandler cands cy now fs).2 = fs) ∧
      ((bulkCreate cands cy now (readBooks fs)).1.success ≠ [] →
        (bulkHandler cands cy now fs).2 =
          .stored (readBooks fs ++ (bulkCreate cands cy now (readBooks fs)).1.success))) ∧
    (∀ cands : List Candidate, bulkStatus (some cands) = 201) ∧
    ((bulkCreate [bulkCand1, bulkCand2, bulkCand3] 2025 "t" []).1.success.length = 1 ∧
      (bulkCreate [bulkCand1, bulkCand2, bulkCand3] 2025 "t" []).1.errors.map
        Prod.fst = [1, 2]) := by
  refine ⟨?_, ?_, fun _ => rfl, by decide, by decide⟩
  · intro cands cy now books
    obtain ⟨ns, ne, heq, hlen, hbnd, hpw⟩ := bulkGo_inv cy now cands 0 books [] []
    simp only [List.nil_append] at heq
    simp only [bulkCreate, heq]
    refine ⟨hlen, by simp, by simp, hpw, ?_⟩
    intro p hp
    have := hbnd p hp
    omega
  · intro cands cy now fs
    obtain ⟨ns, ne, heq, hlen, hbnd, hpw⟩ :=
      bulkGo_inv cy now cands 0 (readBooks fs) [] []
    simp only [List.nil_append] at heq
    constructor
    · intro h0
      simp only [bulkCreate, heq] at h0
      simp [bulkHandler, bulkCreate, heq, h0]
    · intro h1
      simp only [bulkCreate, heq] at h1
      simp [bulkHandler, bulkCreate, heq, h1, writeBooks]

/-- C5 witness: a single-candidate batch on an empty store triggers the one
persistence write. -/
theorem bulk_batch_spec_witness :
    (bulkHandler [bulkCand1] 2025 "t" .missing).2 =
      .stored (readBooks .missing ++
        (bulkCreate [bulkCand1] 2025 "t" (readBooks .missing)).1.success) := by
  exact (bulk_batch_spec.2.1 [bulkCand1] 2025 "t" .missing).2 (by decide)

end BookCatalog
